import Mathlib

/-!
Shallow embedding of `src/app/page.tsx` (document-search chat page):
the conversation state manager (`handleQuery`), the response defaulting
(`buildAgentResponse`), the response renderers, the document registry
(`handleFileSelect`, `handleDeleteDocument`) and the simulated upload
progress tick.
-/

namespace DocSearch

/-- A JS value slot for an optional field of a JSON payload: the field can be
absent (`undefined`), present but `null`, or present with a value.  The JS
nullish-coalescing operator `x ?? d` yields `d` exactly when `x` is absent or
null, which is `JVal.coalesce`. -/
inductive JVal (α : Type) where
  | absent
  | null
  | val (a : α)
deriving DecidableEq

/-- JS `x ?? d`. -/
def JVal.coalesce {α : Type} : JVal α → α → α
  | .absent, d => d
  | .null, d => d
  | .val a, _ => a

/-- `interface Citation` (page.tsx lines 23-28); every field is optional. -/
structure Citation where
  document_name : Option String
  page_number : Option Int
  excerpt : Option String
  relevance_score : Option ℚ
deriving DecidableEq

/-- The `metadata` object inside `SearchResponse` (page.tsx lines 36-40). -/
structure ParsedMetadata where
  search_queries_used : Option (List String)
  total_passages_retrieved : Option Int
  processing_time : Option String
deriving DecidableEq

/-- `interface SearchResponse` (page.tsx lines 30-41): the structured payload
attached to an agent message; every field optional. -/
structure SearchResponse where
  answer : Option String
  citations : Option (List Citation)
  documents_referenced : Option (List String)
  confidence : Option ℚ
  follow_up_suggestions : Option (List String)
  metadata : Option ParsedMetadata
deriving DecidableEq

/-- The parsed server payload (`parsedResponse` in `handleQuery`): each
recognized field can be absent, null, or carry a value. -/
structure ParsedResponse where
  answer : JVal String
  citations : JVal (List Citation)
  documents_referenced : JVal (List String)
  confidence : JVal ℚ
  follow_up_suggestions : JVal (List String)
  metadata : JVal ParsedMetadata
deriving DecidableEq

/-- The `type` discriminator of `interface ChatMessage`. -/
inductive MsgType where
  | user
  | agent
deriving DecidableEq

/-- `interface ChatMessage` (page.tsx lines 43-49). -/
structure ChatMessage where
  id : String
  type : MsgType
  content : String
  response : Option SearchResponse
  timestamp : String
deriving DecidableEq

/-- The fixed fallback answer string (page.tsx line 152). -/
def fallbackAnswer : String :=
  "No documents found matching your query. Please upload documents to get started."

/-- The fixed user-facing error string of the catch branch (page.tsx line 193). -/
def errorContent : String :=
  "An error occurred while processing your query. Please try again."

/-- The default `metadata` object of the initial `agentResponse`
(page.tsx lines 157-161). -/
def defaultMetadata : ParsedMetadata :=
  { search_queries_used := some []
    total_passages_retrieved := some 0
    processing_time := some "0s" }

/-- The initial all-default `agentResponse` (page.tsx lines 151-162). -/
def defaultSearchResponse : SearchResponse :=
  { answer := some fallbackAnswer
    citations := some []
    documents_referenced := some []
    confidence := some 0
    follow_up_suggestions := some []
    metadata := some defaultMetadata }

/-- Outcome of the awaited `/api/agent` call, as observed by `handleQuery`.
`failure` is any exception reaching the catch block (network error, malformed
JSON body, or a string `response` failing `JSON.parse`); `reply success resp`
is a parsed body, where `resp = none` models `data.response` being absent,
null or otherwise falsy (the `data.success && data.response` guard). -/
inductive FetchOutcome where
  | failure
  | reply (success : Bool) (resp : Option ParsedResponse)
deriving DecidableEq

/-- page.tsx lines 151-177: start from the all-default response and, when
`data.success && data.response`, overwrite each field with
`parsedResponse.field ?? default`. -/
def buildAgentResponse (success : Bool) (resp : Option ParsedResponse) : SearchResponse :=
  match success, resp with
  | true, some p =>
    { answer := some (p.answer.coalesce fallbackAnswer)
      citations := some (p.citations.coalesce [])
      documents_referenced := some (p.documents_referenced.coalesce [])
      confidence := some (p.confidence.coalesce 0)
      follow_up_suggestions := some (p.follow_up_suggestions.coalesce [])
      metadata := some (p.metadata.coalesce defaultMetadata) }
  | _, _ => defaultSearchResponse

/-- The conversation-side component state: `chatMessages`, `query`, `loading`
(page.tsx lines 53-55). -/
structure ChatState where
  chatMessages : List ChatMessage
  query : String
  loading : Bool
deriving DecidableEq

/-- JS `String.prototype.trim`: drop leading and trailing whitespace.
Written on the character list so it is executable by kernel reduction. -/
def jsTrim (s : String) : String :=
  String.mk ((s.data.dropWhile Char.isWhitespace).reverse.dropWhile Char.isWhitespace).reverse

/-- `handleQuery` (page.tsx lines 124-200), as one serialized step: the guard
`if (!query.trim() || loading) return`, the optimistic user message, clearing
the input, setting the in-flight flag, then either the catch branch (append
the fixed error message) or the response branch (append the agent message
holding the defaulted `SearchResponse`); `finally` clears the flag.  The
nondeterministic message ids and timestamps are parameters. -/
def handleQuery (s : ChatState) (o : FetchOutcome)
    (uid uts aid ats : String) : ChatState :=
  if jsTrim s.query = "" ∨ s.loading = true then s
  else
    let userMessage : ChatMessage :=
      { id := uid, type := .user, content := s.query, response := none, timestamp := uts }
    let s1 : ChatState :=
      { chatMessages := s.chatMessages ++ [userMessage], query := "", loading := true }
    match o with
    | .failure =>
      let errorMessage : ChatMessage :=
        { id := aid, type := .agent, content := errorContent, response := none, timestamp := ats }
      { s1 with chatMessages := s1.chatMessages ++ [errorMessage], loading := false }
    | .reply success resp =>
      let agentResponse := buildAgentResponse success resp
      let agentMessage : ChatMessage :=
        { id := aid, type := .agent, content := agentResponse.answer.getD ""
          response := some agentResponse, timestamp := ats }
      { s1 with chatMessages := s1.chatMessages ++ [agentMessage], loading := false }

/-- JS `Math.round`: round half toward positive infinity. -/
def jsRound (q : ℚ) : ℤ := ⌊q + 1/2⌋

/-- page.tsx line 381: `Math.round((message.response.confidence ?? 0) * 100)`. -/
def renderConfidencePct (r : SearchResponse) : ℤ :=
  jsRound (r.confidence.getD 0 * 100)

/-- page.tsx line 385: `message.response.documents_referenced?.length ?? 0`. -/
def renderDocumentsCount (r : SearchResponse) : ℕ :=
  (r.documents_referenced.getD []).length

/-- page.tsx line 389: `message.response.metadata?.total_passages_retrieved ?? 0`. -/
def renderPassagesCount (r : SearchResponse) : ℤ :=
  match r.metadata with
  | some m => m.total_passages_retrieved.getD 0
  | none => 0

/-- page.tsx line 411: `message.response.metadata?.processing_time ?? '0s'`. -/
def renderProcessingTime (r : SearchResponse) : String :=
  match r.metadata with
  | some m => m.processing_time.getD "0s"
  | none => "0s"

/-- page.tsx lines 358-375: the citation chips are rendered only when
`citations && citations.length > 0`, and then one chip per citation. -/
def renderCitationChips (r : SearchResponse) : List Citation :=
  match r.citations with
  | some cs => if 0 < cs.length then cs else []
  | none => []

/-- page.tsx lines 394-409: the follow-up list is rendered only when
`follow_up_suggestions && follow_up_suggestions.length > 0`, and then shows
`follow_up_suggestions.slice(0, 3)`. -/
def renderFollowUps (r : SearchResponse) : List String :=
  match r.follow_up_suggestions with
  | some fs => if 0 < fs.length then fs.take 3 else []
  | none => []

/-- `interface Document` (page.tsx lines 14-21). -/
structure Document where
  id : String
  name : String
  size : Nat
  pages : Nat
  uploadDate : String
  uploadProgress : Option ℚ
deriving DecidableEq

/-- A member of the `FileList` handed to `handleFileSelect`: the properties
the component reads (`name`, `size`, `type`). -/
structure JSFile where
  name : String
  size : Nat
  type : String
deriving DecidableEq

/-- The registry-side component state: `documents`, `uploadingFiles`,
`deleteConfirm` (page.tsx lines 52, 57, 59).  The `uploadingFiles` JS object
is modelled as an association list in key-insertion order (JS objects preserve
string-key insertion order, and spread keeps an existing key in place). -/
structure RegState where
  documents : List Document
  uploadingFiles : List (String × ℚ)
  deleteConfirm : Option String
deriving DecidableEq

/-- JS object read `prev[fileId] || 0`: the entry value if the key is present,
`0` otherwise (`|| 0` also sends an actual `0` to `0`). -/
def mapGet (m : List (String × ℚ)) (k : String) : ℚ :=
  match m.find? (fun e => e.1 == k) with
  | some e => e.2
  | none => 0

/-- JS object spread `{ ...prev, [k]: v }`: an existing key is updated in
place, a new key is appended at the end. -/
def mapSet (m : List (String × ℚ)) (k : String) (v : ℚ) : List (String × ℚ) :=
  if m.any (fun e => e.1 == k) then
    m.map (fun e => if e.1 == k then (k, v) else e)
  else
    m ++ [(k, v)]

/-- JS `delete updated[k]`. -/
def mapDel (m : List (String × ℚ)) (k : String) : List (String × ℚ) :=
  m.filter (fun e => e.1 != k)

/-- One firing of the `progressInterval` callback (page.tsx lines 79-88):
read the current value, leave the map unchanged when it is already `>= 90`
(the interval is then cleared), otherwise add `Math.random() * 40`; the random
draw `r` (in `[0,1)` at runtime) is a parameter. -/
def progressTickMap (m : List (String × ℚ)) (k : String) (r : ℚ) : List (String × ℚ) :=
  let current := mapGet m k
  if 90 ≤ current then m
  else mapSet m k (current + r * 40)

/-- Decimal digit characters of a natural number, most significant first:
the embedding of JS number-to-string for the `Date.now()` timestamp.
Fuel-based so it reduces by `decide`; `natDigits` supplies ample fuel. -/
def natDigitsAux : Nat → Nat → List Char
  | 0, _ => []
  | f + 1, n =>
    if n < 10 then [Nat.digitChar n]
    else natDigitsAux f (n / 10) ++ [Nat.digitChar (n % 10)]

/-- Decimal rendering of a natural number as a list of digit characters. -/
def natDigits (n : Nat) : List Char := natDigitsAux (n + 1) n

/-- `` `${file.name}-${Date.now()}` `` (page.tsx line 75). -/
def mkFileId (name : String) (now : Nat) : String :=
  name ++ "-" ++ String.mk (natDigits now)

/-- The per-upload nondeterminism of one iteration of the `handleFileSelect`
loop: the `Date.now()` millisecond timestamp, the simulated page count, the
display date, and the random draws of the progress ticks that fire before the
2000 ms processing delay elapses. -/
structure UploadEnv where
  now : Nat
  pages : Nat
  date : String
  ticks : List ℚ
deriving DecidableEq

/-- One iteration of the `for (const file of selectedFiles)` loop
(page.tsx lines 74-107): create the progress entry at 0, run the interval
ticks, then insert the new `Document` at the head of the list and delete the
progress entry. -/
def processFile (s : RegState) (f : JSFile) (env : UploadEnv) : RegState :=
  let fileId := mkFileId f.name env.now
  let m0 := mapSet s.uploadingFiles fileId 0
  let m1 := env.ticks.foldl (fun m r => progressTickMap m fileId r) m0
  let newDoc : Document :=
    { id := fileId, name := f.name, size := f.size, pages := env.pages
      uploadDate := env.date, uploadProgress := none }
  { s with documents := newDoc :: s.documents, uploadingFiles := mapDel m1 fileId }

/-- page.tsx line 72: `Array.from(files).filter(file => file.type === 'application/pdf')`. -/
def pdfFilter (files : List JSFile) : List JSFile :=
  files.filter (fun f => f.type == "application/pdf")

/-- `handleFileSelect` (page.tsx lines 71-113): filter to PDFs, then process
each selected file in order; `envs` carries the per-file nondeterminism. -/
def handleFileSelect (s : RegState) (files : List JSFile) (envs : List UploadEnv) : RegState :=
  (List.zip (pdfFilter files) envs).foldl (fun st fe => processFile st fe.1 fe.2) s

/-- `setDeleteConfirm` (page.tsx lines 59, 294, 492): the delete-request
action only records which document awaits confirmation. -/
def setDeleteConfirm (s : RegState) (v : Option String) : RegState :=
  { s with deleteConfirm := v }

/-- `handleDeleteDocument` (page.tsx lines 119-122): filter out the document
with the given id and close the confirmation dialog. -/
def handleDeleteDocument (s : RegState) (docId : String) : RegState :=
  { s with documents := s.documents.filter (fun doc => doc.id != docId)
           deleteConfirm := none }

/-- A registry-affecting event of a session: completion of one upload
(one `processFile` iteration on a selected PDF) or a confirmed delete. -/
inductive RegEvent where
  | upload (f : JSFile) (env : UploadEnv)
  | deleteDoc (id : String)
deriving DecidableEq

/-- Apply one registry event. -/
def regStep (s : RegState) : RegEvent → RegState
  | .upload f env => processFile s f env
  | .deleteDoc id => handleDeleteDocument s id

/-- The empty initial registry state (page.tsx lines 52, 57, 59). -/
def regInit : RegState :=
  { documents := [], uploadingFiles := [], deleteConfirm := none }

/-- Run a session trace of registry events. -/
def runReg (es : List RegEvent) (s : RegState) : RegState :=
  es.foldl regStep s

/-- The (file name, timestamp) pair of every upload event of a trace. -/
def uploadPairs : List RegEvent → List (String × Nat)
  | [] => []
  | .upload f env :: es => (f.name, env.now) :: uploadPairs es
  | .deleteDoc _ :: es => uploadPairs es

/-! ## Helper lemmas -/

/-- When `success` is false or `response` is absent, the guard at page.tsx
line 164 fails and the initial all-default response is kept. -/
theorem buildAgentResponse_default (success : Bool) (resp : Option ParsedResponse)
    (h : success = false ∨ resp = none) :
    buildAgentResponse success resp = defaultSearchResponse := by
  rcases h with h | h
  · subst h; rfl
  · subst h; cases success <;> rfl

/-! ## Claims about the conversation state manager -/

/-- C1: if the submitted text is empty or whitespace-only, or a request is
already in flight, `handleQuery` is a no-op: the state (message list, query
text, in-flight flag) is returned unchanged, for every possible outcome of
the network call — in particular no user message is appended and the outcome
of any outbound request is irrelevant, i.e. none is issued. -/
theorem submitQuery_noop_when_blank_or_inflight (s : ChatState) (o : FetchOutcome)
    (uid uts aid ats : String) (h : jsTrim s.query = "" ∨ s.loading = true) :
    handleQuery s o uid uts aid ats = s := by
  simp [handleQuery, h]

/-- Witness for C1 at a whitespace-only query and at a set in-flight flag. -/
theorem submitQuery_noop_when_blank_or_inflight_witness :
    (jsTrim "   " = "" ∨ (false = true)) ∧
    handleQuery ⟨[], "   ", false⟩ .failure "u1" "t1" "a1" "t2" = ⟨[], "   ", false⟩ ∧
    handleQuery ⟨[], "hello", true⟩ .failure "u1" "t1" "a1" "t2" = ⟨[], "hello", true⟩ :=
  ⟨Or.inl (by decide),
   submitQuery_noop_when_blank_or_inflight ⟨[], "   ", false⟩ .failure "u1" "t1" "a1" "t2"
     (Or.inl (by decide)),
   submitQuery_noop_when_blank_or_inflight ⟨[], "hello", true⟩ .failure "u1" "t1" "a1" "t2"
     (Or.inr rfl)⟩

/-- C2: an agent payload with `success` true whose parsed response is missing
every optional field renders with confidence 0%, 0 documents referenced,
0 passages retrieved, processing time "0s", no citation chips and no
follow-up list — every absent field is replaced by its default. -/
theorem render_defaults_when_all_fields_absent (p : ParsedResponse)
    (h1 : p.answer = .absent) (h2 : p.citations = .absent)
    (h3 : p.documents_referenced = .absent) (h4 : p.confidence = .absent)
    (h5 : p.follow_up_suggestions = .absent) (h6 : p.metadata = .absent) :
    renderConfidencePct (buildAgentResponse true (some p)) = 0 ∧
    renderDocumentsCount (buildAgentResponse true (some p)) = 0 ∧
    renderPassagesCount (buildAgentResponse true (some p)) = 0 ∧
    renderProcessingTime (buildAgentResponse true (some p)) = "0s" ∧
    renderCitationChips (buildAgentResponse true (some p)) = [] ∧
    renderFollowUps (buildAgentResponse true (some p)) = [] := by
  refine ⟨?_, ?_, ?_, ?_, ?_, ?_⟩ <;>
    simp [buildAgentResponse, h1, h2, h3, h4, h5, h6, JVal.coalesce, renderConfidencePct,
      renderDocumentsCount, renderPassagesCount, renderProcessingTime, renderCitationChips,
      renderFollowUps, defaultMetadata, jsRound]
  norm_num

/-- Witness for C2 at the all-absent parsed payload. -/
theorem render_defaults_when_all_fields_absent_witness :
    renderConfidencePct (buildAgentResponse true (some ⟨.absent, .absent, .absent, .absent, .absent, .absent⟩)) = 0 ∧
    renderDocumentsCount (buildAgentResponse true (some ⟨.absent, .absent, .absent, .absent, .absent, .absent⟩)) = 0 ∧
    renderPassagesCount (buildAgentResponse true (some ⟨.absent, .absent, .absent, .absent, .absent, .absent⟩)) = 0 ∧
    renderProcessingTime (buildAgentResponse true (some ⟨.absent, .absent, .absent, .absent, .absent, .absent⟩)) = "0s" ∧
    renderCitationChips (buildAgentResponse true (some ⟨.absent, .absent, .absent, .absent, .absent, .absent⟩)) = [] ∧
    renderFollowUps (buildAgentResponse true (some ⟨.absent, .absent, .absent, .absent, .absent, .absent⟩)) = [] :=
  render_defaults_when_all_fields_absent ⟨.absent, .absent, .absent, .absent, .absent, .absent⟩
    rfl rfl rfl rfl rfl rfl

/-- C3: a server reply with `success` false or `response` absent appends an
agent message carrying the fixed fallback answer and the all-default
structured response (empty citations, empty documents_referenced, confidence
0, empty follow-up suggestions, default metadata), after the optimistic user
message, and leaves the in-flight flag cleared. -/
theorem fallback_on_unsuccessful_reply (s : ChatState) (success : Bool)
    (resp : Option ParsedResponse) (uid uts aid ats : String)
    (hq : jsTrim s.query ≠ "") (hl : s.loading = false)
    (h : success = false ∨ resp = none) :
    handleQuery s (.reply success resp) uid uts aid ats =
      { chatMessages := s.chatMessages ++
          [ { id := uid, type := .user, content := s.query, response := none, timestamp := uts },
            { id := aid, type := .agent, content := fallbackAnswer,
              response := some defaultSearchResponse, timestamp := ats } ]
        query := "", loading := false } := by
  simp [handleQuery, hq, hl, buildAgentResponse_default success resp h, defaultSearchResponse]

/-- Witness for C3 at the reply `{success: false}`. -/
theorem fallback_on_unsuccessful_reply_witness :
    jsTrim "hi" ≠ "" ∧
    handleQuery ⟨[], "hi", false⟩ (.reply false none) "u1" "t1" "a1" "t2" =
      { chatMessages :=
          [ { id := "u1", type := .user, content := "hi", response := none, timestamp := "t1" },
            { id := "a1", type := .agent, content := fallbackAnswer,
              response := some defaultSearchResponse, timestamp := "t2" } ]
        query := "", loading := false } :=
  ⟨by decide,
   fallback_on_unsuccessful_reply ⟨[], "hi", false⟩ false none "u1" "t1" "a1" "t2"
     (by decide) rfl (Or.inl rfl)⟩

/-- C4: on a transport or JSON-parse failure, exactly one agent message is
appended (after the optimistic user message); it carries the fixed error
string and no structured response, and the in-flight flag ends cleared.  The
step consumes the single outcome and produces no further request. -/
theorem error_turn_on_transport_failure (s : ChatState) (uid uts aid ats : String)
    (hq : jsTrim s.query ≠ "") (hl : s.loading = false) :
    handleQuery s .failure uid uts aid ats =
      { chatMessages := s.chatMessages ++
          [ { id := uid, type := .user, content := s.query, response := none, timestamp := uts },
            { id := aid, type := .agent, content := errorContent,
              response := none, timestamp := ats } ]
        query := "", loading := false } := by
  simp [handleQuery, hq, hl]

/-- Witness for C4 at a concrete idle state with a non-blank query. -/
theorem error_turn_on_transport_failure_witness :
    jsTrim "hi" ≠ "" ∧
    handleQuery ⟨[], "hi", false⟩ .failure "u1" "t1" "a1" "t2" =
      { chatMessages :=
          [ { id := "u1", type := .user, content := "hi", response := none, timestamp := "t1" },
            { id := "a1", type := .agent, content := errorContent,
              response := none, timestamp := "t2" } ]
        query := "", loading := false } :=
  ⟨by decide,
   error_turn_on_transport_failure ⟨[], "hi", false⟩ "u1" "t1" "a1" "t2" (by decide) rfl⟩

/-- C6: the rendered follow-up list is exactly the first `min n 3` of the `n`
server-provided suggestions, in server order. -/
theorem followups_truncated_to_three (r : SearchResponse) (fs : List String)
    (h : r.follow_up_suggestions = some fs) :
    renderFollowUps r = fs.take 3 ∧ (renderFollowUps r).length = min fs.length 3 := by
  cases fs with
  | nil => simp [renderFollowUps, h]
  | cons a t =>
    simp [renderFollowUps, h, List.length_take]
    omega

/-- Witness for C6 at a response carrying five suggestions. -/
theorem followups_truncated_to_three_witness :
    renderFollowUps ⟨none, none, none, none, some ["a", "b", "c", "d", "e"], none⟩ =
      ["a", "b", "c", "d", "e"].take 3 ∧
    (renderFollowUps ⟨none, none, none, none, some ["a", "b", "c", "d", "e"], none⟩).length =
      min (["a", "b", "c", "d", "e"].length) 3 :=
  followups_truncated_to_three ⟨none, none, none, none, some ["a", "b", "c", "d", "e"], none⟩
    ["a", "b", "c", "d", "e"] rfl

/-- C10: a recognized field that is present but null is coalesced to its
documented default exactly like an absent one, and the `SearchResponse`
attached to the agent message has every field present (never null or
undefined). -/
theorem null_fields_defaulted (p : ParsedResponse) :
    ((buildAgentResponse true (some p)).answer.isSome ∧
     (buildAgentResponse true (some p)).citations.isSome ∧
     (buildAgentResponse true (some p)).documents_referenced.isSome ∧
     (buildAgentResponse true (some p)).confidence.isSome ∧
     (buildAgentResponse true (some p)).follow_up_suggestions.isSome ∧
     (buildAgentResponse true (some p)).metadata.isSome) ∧
    (p.answer = .null → (buildAgentResponse true (some p)).answer = some fallbackAnswer) ∧
    (p.citations = .null → (buildAgentResponse true (some p)).citations = some []) ∧
    (p.documents_referenced = .null →
      (buildAgentResponse true (some p)).documents_referenced = some []) ∧
    (p.confidence = .null → (buildAgentResponse true (some p)).confidence = some 0) ∧
    (p.follow_up_suggestions = .null →
      (buildAgentResponse true (some p)).follow_up_suggestions = some []) ∧
    (p.metadata = .null → (buildAgentResponse true (some p)).metadata = some defaultMetadata) := by
  refine ⟨⟨?_, ?_, ?_, ?_, ?_, ?_⟩, ?_, ?_, ?_, ?_, ?_, ?_⟩ <;>
    first
    | (intro h; simp [buildAgentResponse, h, JVal.coalesce])
    | simp [buildAgentResponse]

/-- Witness for C10 at the all-null parsed payload. -/
theorem null_fields_defaulted_witness :
    (buildAgentResponse true (some ⟨.null, .null, .null, .null, .null, .null⟩)).answer = some fallbackAnswer ∧
    (buildAgentResponse true (some ⟨.null, .null, .null, .null, .null, .null⟩)).citations = some [] ∧
    (buildAgentResponse true (some ⟨.null, .null, .null, .null, .null, .null⟩)).documents_referenced = some [] ∧
    (buildAgentResponse true (some ⟨.null, .null, .null, .null, .null, .null⟩)).confidence = some 0 ∧
    (buildAgentResponse true (some ⟨.null, .null, .null, .null, .null, .null⟩)).follow_up_suggestions = some [] ∧
    (buildAgentResponse true (some ⟨.null, .null, .null, .null, .null, .null⟩)).metadata = some defaultMetadata :=
  ⟨(null_fields_defaulted ⟨.null, .null, .null, .null, .null, .null⟩).2.1 rfl,
   (null_fields_defaulted ⟨.null, .null, .null, .null, .null, .null⟩).2.2.1 rfl,
   (null_fields_defaulted ⟨.null, .null, .null, .null, .null, .null⟩).2.2.2.1 rfl,
   (null_fields_defaulted ⟨.null, .null, .null, .null, .null, .null⟩).2.2.2.2.1 rfl,
   (null_fields_defaulted ⟨.null, .null, .null, .null, .null, .null⟩).2.2.2.2.2.1 rfl,
   (null_fields_defaulted ⟨.null, .null, .null, .null, .null, .null⟩).2.2.2.2.2.2 rfl⟩

/-! ## Map lemmas for the upload-progress object -/

/-- Looking up the key just written by a JS object spread finds the new value. -/
theorem find?_mapSet (m : List (String × ℚ)) (k : String) (v : ℚ) :
    (mapSet m k v).find? (fun e => e.1 == k) = some (k, v) := by
  induction m with
  | nil =>
    unfold mapSet
    rw [if_neg (by simp), List.nil_append, List.find?_cons_of_pos _ (by simp)]
  | cons e t ih =>
    by_cases he : (e.1 == k) = true
    · have hcond : ((e :: t).any fun x => x.1 == k) = true := by simp [he]
      unfold mapSet
      rw [if_pos hcond, List.map_cons, if_pos he, List.find?_cons_of_pos _ (by simp)]
    · by_cases ha : (t.any fun x => x.1 == k) = true
      · have hcond : ((e :: t).any fun x => x.1 == k) = true := by
          simp [List.any_cons, ha]
        unfold mapSet
        rw [if_pos hcond, List.map_cons, if_neg he]
        have hskip : List.find? (fun x => x.1 == k)
            (e :: t.map (fun x => if x.1 == k then (k, v) else x)) =
            List.find? (fun x => x.1 == k)
              (t.map (fun x => if x.1 == k then (k, v) else x)) :=
          List.find?_cons_of_neg _ he
        rw [hskip]
        have ht : mapSet t k v = t.map (fun x => if x.1 == k then (k, v) else x) := by
          unfold mapSet; rw [if_pos ha]
        rw [← ht]; exact ih
      · have hcond : ¬(((e :: t).any fun x => x.1 == k) = true) := by
          simp [List.any_cons, he, ha]
        unfold mapSet
        rw [if_neg hcond, List.cons_append]
        have hskip : List.find? (fun x => x.1 == k) (e :: (t ++ [(k, v)])) =
            List.find? (fun x => x.1 == k) (t ++ [(k, v)]) :=
          List.find?_cons_of_neg _ he
        rw [hskip]
        have ht : mapSet t k v = t ++ [(k, v)] := by
          unfold mapSet; rw [if_neg ha]
        rw [← ht]; exact ih

/-- Reading back the value just written. -/
theorem mapGet_mapSet_self (m : List (String × ℚ)) (k : String) (v : ℚ) :
    mapGet (mapSet m k v) k = v := by
  simp [mapGet, find?_mapSet]

/-- A tick on an entry already at 90 or more leaves the map untouched
(and the source then clears the interval). -/
theorem progressTickMap_of_ge (m : List (String × ℚ)) (k : String) (r : ℚ)
    (h : 90 ≤ mapGet m k) : progressTickMap m k r = m := by
  simp [progressTickMap, h]

/-- A tick on an entry below 90 adds `r * 40` to it. -/
theorem mapGet_progressTickMap_of_lt (m : List (String × ℚ)) (k : String) (r : ℚ)
    (h : mapGet m k < 90) :
    mapGet (progressTickMap m k r) k = mapGet m k + r * 40 := by
  simp [progressTickMap, not_le.mpr h, mapGet_mapSet_self]

/-! ## Claims about the document registry -/

/-- C5 (amended): each tick with a random draw `r ∈ [0,1)` leaves the
progress value non-decreasing, and a tick on an entry already at 90 or more
is a no-op (the interval then stops incrementing); but a single tick from
below 90 may carry the value past 90 — it is only bounded by 130, not 90. -/
theorem progress_tick_monotone_and_stops_at_90 (m : List (String × ℚ)) (k : String)
    (r : ℚ) (h0 : 0 ≤ r) (h1 : r < 1) :
    mapGet m k ≤ mapGet (progressTickMap m k r) k ∧
    (90 ≤ mapGet m k → progressTickMap m k r = m) ∧
    (mapGet m k < 90 → mapGet (progressTickMap m k r) k < 130) := by
  by_cases hc : 90 ≤ mapGet m k
  · rw [progressTickMap_of_ge m k r hc]
    exact ⟨le_refl _, fun _ => rfl, fun h => absurd h (not_lt.mpr hc)⟩
  · push_neg at hc
    rw [mapGet_progressTickMap_of_lt m k r hc]
    refine ⟨?_, fun h => absurd h (not_le.mpr hc), fun _ => ?_⟩
    · nlinarith
    · nlinarith

/-- Witness for the amended C5 at a freshly created entry and `r = 1/2`. -/
theorem progress_tick_monotone_and_stops_at_90_witness :
    (0 : ℚ) ≤ 1/2 ∧ (1/2 : ℚ) < 1 ∧
    (mapGet (mapSet [] "u" 0) "u" ≤
        mapGet (progressTickMap (mapSet [] "u" 0) "u" (1/2)) "u" ∧
      (90 ≤ mapGet (mapSet [] "u" 0) "u" →
        progressTickMap (mapSet [] "u" 0) "u" (1/2) = mapSet [] "u" 0) ∧
      (mapGet (mapSet [] "u" 0) "u" < 90 →
        mapGet (progressTickMap (mapSet [] "u" 0) "u" (1/2)) "u" < 130)) :=
  ⟨by norm_num, by norm_num,
   progress_tick_monotone_and_stops_at_90 (mapSet [] "u" 0) "u" (1/2)
     (by norm_num) (by norm_num)⟩

/-- Counterexample to C5 as stated: three legal ticks (`r = 9/10 ∈ [0,1)`) on
an entry created at 0 drive its value to 108, which exceeds 90 while the
entry still exists and no completion has been signaled. -/
theorem progress_exceeds_90_counterexample :
    (0 : ℚ) ≤ 9/10 ∧ (9/10 : ℚ) < 1 ∧
    mapGet (progressTickMap (progressTickMap (progressTickMap
        (mapSet [] "u" 0) "u" (9/10)) "u" (9/10)) "u" (9/10)) "u" = 108 ∧
    (90 : ℚ) < 108 := by
  have e0 : mapGet (mapSet ([] : List (String × ℚ)) "u" 0) "u" = 0 :=
    mapGet_mapSet_self _ _ _
  have e1 : mapGet (progressTickMap (mapSet [] "u" 0) "u" (9/10)) "u" = 36 := by
    rw [mapGet_progressTickMap_of_lt _ _ _ (by rw [e0]; norm_num), e0]; norm_num
  have e2 : mapGet (progressTickMap (progressTickMap (mapSet [] "u" 0) "u" (9/10))
      "u" (9/10)) "u" = 72 := by
    rw [mapGet_progressTickMap_of_lt _ _ _ (by rw [e1]; norm_num), e1]; norm_num
  have e3 : mapGet (progressTickMap (progressTickMap (progressTickMap
      (mapSet [] "u" 0) "u" (9/10)) "u" (9/10)) "u" (9/10)) "u" = 108 := by
    rw [mapGet_progressTickMap_of_lt _ _ _ (by rw [e2]; norm_num), e2]; norm_num
  exact ⟨by norm_num, by norm_num, e3, by norm_num⟩

/-- C7: a file selection containing no file whose declared media type is
"application/pdf" leaves the whole registry state (document list,
upload-progress map, pending delete confirmation) unchanged. -/
theorem non_pdf_selection_noop (s : RegState) (files : List JSFile)
    (envs : List UploadEnv) (h : ∀ f ∈ files, f.type ≠ "application/pdf") :
    handleFileSelect s files envs = s := by
  have hnil : pdfFilter files = [] := by
    rw [pdfFilter, List.filter_eq_nil_iff]
    intro f hf
    simpa using h f hf
  simp [handleFileSelect, hnil]

/-- Witness for C7 at a selection of two non-PDF files. -/
theorem non_pdf_selection_noop_witness :
    (∀ f ∈ [(⟨"notes.txt", 10, "text/plain"⟩ : JSFile),
            ⟨"pic.png", 20, "image/png"⟩], f.type ≠ "application/pdf") ∧
    handleFileSelect regInit
      [⟨"notes.txt", 10, "text/plain"⟩, ⟨"pic.png", 20, "image/png"⟩]
      [⟨1, 10, "d", []⟩] = regInit :=
  ⟨by decide,
   non_pdf_selection_noop regInit
     [⟨"notes.txt", 10, "text/plain"⟩, ⟨"pic.png", 20, "image/png"⟩]
     [⟨1, 10, "d", []⟩] (by decide)⟩

/-- C8: the delete-request action (`setDeleteConfirm`) never mutates the
document list or the upload-progress map; the confirm action
(`handleDeleteDocument`) keeps, in their existing order, exactly the
documents whose id differs from the given one. -/
theorem two_step_delete_frame (s : RegState) (v : Option String) (docId : String) :
    (setDeleteConfirm s v).documents = s.documents ∧
    (setDeleteConfirm s v).uploadingFiles = s.uploadingFiles ∧
    ((handleDeleteDocument s docId).documents).Sublist s.documents ∧
    ∀ d : Document,
      d ∈ (handleDeleteDocument s docId).documents ↔ d ∈ s.documents ∧ d.id ≠ docId := by
  refine ⟨rfl, rfl, List.filter_sublist _, ?_⟩
  intro d
  simp [handleDeleteDocument, List.mem_filter]

/-! ## Decimal rendering lemmas, for document-id uniqueness -/

/-- The fuel argument of `natDigitsAux` is irrelevant once it exceeds `n`. -/
theorem natDigitsAux_fuel (n : Nat) :
    ∀ f g, n < f → n < g → natDigitsAux f n = natDigitsAux g n := by
  induction n using Nat.strong_induction_on with
  | _ n ih =>
    intro f g hf hg
    cases f with
    | zero => exact absurd hf (Nat.not_lt_zero n)
    | succ f =>
      cases g with
      | zero => exact absurd hg (Nat.not_lt_zero n)
      | succ g =>
        by_cases h : n < 10
        · simp [natDigitsAux, h]
        · have hdiv : n / 10 < n := Nat.div_lt_self (by omega) (by omega)
          simp only [natDigitsAux, if_neg h]
          rw [ih (n / 10) (by omega) f g (by omega) (by omega)]

/-- Recursive unfolding of `natDigits`. -/
theorem natDigits_eq (n : Nat) :
    natDigits n =
      if n < 10 then [Nat.digitChar n]
      else natDigits (n / 10) ++ [Nat.digitChar (n % 10)] := by
  by_cases h : n < 10
  · simp [natDigits, natDigitsAux, h]
  · have hdiv : n / 10 < n := Nat.div_lt_self (by omega) (by omega)
    have h1 : natDigits n = natDigitsAux n (n / 10) ++ [Nat.digitChar (n % 10)] := by
      simp [natDigits, natDigitsAux, h]
    rw [h1, if_neg h, natDigitsAux_fuel (n / 10) n (n / 10 + 1) (by omega) (by omega)]
    rfl

/-- A decimal rendering is never the empty character list. -/
theorem natDigits_ne_nil (n : Nat) : natDigits n ≠ [] := by
  rw [natDigits_eq]
  by_cases h : n < 10 <;> simp [h]

/-- A single decimal digit character is never the dash separator. -/
theorem digitChar_ne_dash (d : Nat) (h : d < 10) : Nat.digitChar d ≠ '-' := by
  interval_cases d <;> decide

/-- Decimal digit characters determine the digit. -/
theorem digitChar_inj (a b : Nat) (ha : a < 10) (hb : b < 10)
    (h : Nat.digitChar a = Nat.digitChar b) : a = b := by
  interval_cases a <;> interval_cases b <;> revert h <;> decide

/-- No character of a decimal rendering is the dash separator. -/
theorem natDigits_dash_free (n : Nat) : ∀ c ∈ natDigits n, c ≠ '-' := by
  induction n using Nat.strong_induction_on with
  | _ n ih =>
    intro c hc
    rw [natDigits_eq] at hc
    by_cases h : n < 10
    · rw [if_pos h, List.mem_singleton] at hc
      subst hc
      exact digitChar_ne_dash n h
    · have hdiv : n / 10 < n := Nat.div_lt_self (by omega) (by omega)
      rw [if_neg h] at hc
      rcases List.mem_append.mp hc with hc | hc
      · exact ih (n / 10) hdiv c hc
      · rw [List.mem_singleton] at hc
        subst hc
        exact digitChar_ne_dash (n % 10) (Nat.mod_lt n (by omega))

/-- Decimal rendering is injective. -/
theorem natDigits_inj (a : Nat) : ∀ b, natDigits a = natDigits b → a = b := by
  induction a using Nat.strong_induction_on with
  | _ a ih =>
    intro b h
    rw [natDigits_eq a, natDigits_eq b] at h
    by_cases haa : a < 10 <;> by_cases hbb : b < 10
    · rw [if_pos haa, if_pos hbb] at h
      simp only [List.cons.injEq, and_true] at h
      exact digitChar_inj a b haa hbb h
    · exfalso
      rw [if_pos haa, if_neg hbb] at h
      have hlen := congrArg List.length h
      rw [List.length_append] at hlen
      simp only [List.length_singleton] at hlen
      exact natDigits_ne_nil (b / 10) (List.length_eq_zero.mp (by omega))
    · exfalso
      rw [if_neg haa, if_pos hbb] at h
      have hlen := congrArg List.length h
      rw [List.length_append] at hlen
      simp only [List.length_singleton] at hlen
      exact natDigits_ne_nil (a / 10) (List.length_eq_zero.mp (by omega))
    · have hda : a / 10 < a := Nat.div_lt_self (by omega) (by omega)
      rw [if_neg haa, if_neg hbb] at h
      have h2 := congrArg List.reverse h
      simp only [List.reverse_append, List.reverse_cons, List.reverse_nil,
        List.nil_append, List.singleton_append] at h2
      injection h2 with hh ht
      have hmod : a % 10 = b % 10 :=
        digitChar_inj _ _ (Nat.mod_lt a (by omega)) (Nat.mod_lt b (by omega)) hh
      have hdivs : a / 10 = b / 10 :=
        ih (a / 10) hda (b / 10) (List.reverse_inj.mp ht)
      omega

/-- If two lists end with a dash followed by dash-free tails, the parts before
and after the final dash agree. Stated on the reversed lists: the prefixes up
to the first dash are dash-free. -/
theorem sep_rev_inj (a1 : List Char) :
    ∀ (a2 b1 b2 : List Char), (∀ c ∈ a1, c ≠ '-') → (∀ c ∈ a2, c ≠ '-') →
      a1 ++ '-' :: b1 = a2 ++ '-' :: b2 → a1 = a2 ∧ b1 = b2 := by
  induction a1 with
  | nil =>
    intro a2 b1 b2 _ h2 he
    cases a2 with
    | nil =>
      simp only [List.nil_append, List.cons.injEq, true_and] at he
      exact ⟨rfl, he⟩
    | cons c t =>
      exfalso
      simp only [List.nil_append, List.cons_append, List.cons.injEq] at he
      exact h2 c (by simp) he.1.symm
  | cons c t ih =>
    intro a2 b1 b2 h1 h2 he
    cases a2 with
    | nil =>
      exfalso
      simp only [List.nil_append, List.cons_append, List.cons.injEq] at he
      exact h1 c (by simp) he.1
    | cons c2 t2 =>
      simp only [List.cons_append, List.cons.injEq] at he
      obtain ⟨hc, ht⟩ := he
      obtain ⟨hta, htb⟩ := ih t2 b1 b2
        (fun x hx => h1 x (by simp [hx])) (fun x hx => h2 x (by simp [hx])) ht
      exact ⟨by rw [hc, hta], htb⟩

/-- The character data of a generated file id. -/
theorem mkFileId_data (name : String) (now : Nat) :
    (mkFileId name now).data = name.data ++ '-' :: natDigits now := by
  cases name with
  | mk d =>
    show (d ++ ['-']) ++ natDigits now = d ++ '-' :: natDigits now
    simp

/-- `` `${name}-${now}` `` is injective in the (name, timestamp) pair, because
the decimal timestamp rendering contains no dash: the two parts can be
recovered by splitting at the last dash. -/
theorem mkFileId_inj (n1 n2 : String) (t1 t2 : Nat)
    (h : mkFileId n1 t1 = mkFileId n2 t2) : n1 = n2 ∧ t1 = t2 := by
  have hd : n1.data ++ '-' :: natDigits t1 = n2.data ++ '-' :: natDigits t2 := by
    rw [← mkFileId_data, ← mkFileId_data, h]
  have hrev := congrArg List.reverse hd
  simp only [List.reverse_append, List.reverse_cons, List.append_assoc,
    List.singleton_append] at hrev
  obtain ⟨hdig, hnm⟩ := sep_rev_inj _ _ _ _
    (fun c hc => natDigits_dash_free t1 c (List.mem_reverse.mp hc))
    (fun c hc => natDigits_dash_free t2 c (List.mem_reverse.mp hc)) hrev
  refine ⟨String.ext (List.reverse_inj.mp hnm), natDigits_inj t1 t2 (List.reverse_inj.mp hdig)⟩

/-! ## Claims about document-id uniqueness -/

/-- Running a trace from any state whose document ids are distinct and
disjoint from the ids the future uploads will generate keeps the ids
distinct, provided the future (name, timestamp) pairs are pairwise distinct. -/
theorem runReg_ids_nodup_aux :
    ∀ (es : List RegEvent) (s : RegState),
      (s.documents.map Document.id).Nodup →
      (∀ d ∈ s.documents, ∀ p ∈ uploadPairs es, d.id ≠ mkFileId p.1 p.2) →
      (uploadPairs es).Nodup →
      (((runReg es s).documents).map Document.id).Nodup := by
  intro es
  induction es with
  | nil =>
    intro s h1 _ _
    simpa [runReg] using h1
  | cons e es ih =>
    intro s h1 h2 h3
    have hstep : runReg (e :: es) s = runReg es (regStep s e) := rfl
    rw [hstep]
    cases e with
    | upload f env =>
      have hpairs : uploadPairs (.upload f env :: es) =
          (f.name, env.now) :: uploadPairs es := rfl
      rw [hpairs] at h2 h3
      apply ih
      · show ((({ s with
            documents := _ :: s.documents,
            uploadingFiles := _ } : RegState).documents).map Document.id).Nodup
        rw [List.map_cons, List.nodup_cons]
        constructor
        · intro hmem
          obtain ⟨d, hd, hid⟩ := List.mem_map.mp hmem
          exact h2 d hd (f.name, env.now) (List.mem_cons_self _ _) hid
        · exact h1
      · intro d hd p hp
        rcases List.mem_cons.mp hd with hd | hd
        · subst hd
          intro heq
          have := mkFileId_inj f.name p.1 env.now p.2 heq
          have hpmem : (f.name, env.now) ∈ uploadPairs es := by
            have : p = (f.name, env.now) := by
              cases p; simp_all
            rw [← this]; exact hp
          exact (List.nodup_cons.mp h3).1 hpmem
        · exact h2 d hd p (List.mem_cons_of_mem _ hp)
      · exact (List.nodup_cons.mp h3).2
    | deleteDoc id =>
      have hpairs : uploadPairs (.deleteDoc id :: es) = uploadPairs es := rfl
      rw [hpairs] at h2 h3
      apply ih
      · exact List.Nodup.sublist
          (List.Sublist.map Document.id (List.filter_sublist s.documents)) h1
      · intro d hd p hp
        exact h2 d (List.mem_of_mem_filter hd) p hp
      · exact h3

/-- C9 (amended): along any session trace of completed uploads and confirmed
deletes, the document ids — each derived as `name-timestamp` — are pairwise
distinct, PROVIDED no two uploads of the trace share both file name and
`Date.now()` timestamp.  The code itself does not enforce that proviso. -/
theorem doc_ids_nodup_of_distinct_name_timestamp (es : List RegEvent)
    (h : (uploadPairs es).Nodup) :
    (((runReg es regInit).documents).map Document.id).Nodup :=
  runReg_ids_nodup_aux es regInit (by simp [regInit]) (by simp [regInit]) h

/-- Witness for the amended C9: two uploads of the same file name at distinct
timestamps, with a delete interleaved, yield distinct document ids. -/
theorem doc_ids_nodup_of_distinct_name_timestamp_witness :
    (uploadPairs [.upload ⟨"a.pdf", 1, "application/pdf"⟩ ⟨5, 10, "d", []⟩,
                  .deleteDoc "x",
                  .upload ⟨"a.pdf", 1, "application/pdf"⟩ ⟨7, 10, "d", []⟩]).Nodup ∧
    (((runReg [.upload ⟨"a.pdf", 1, "application/pdf"⟩ ⟨5, 10, "d", []⟩,
               .deleteDoc "x",
               .upload ⟨"a.pdf", 1, "application/pdf"⟩ ⟨7, 10, "d", []⟩]
        regInit).documents).map Document.id).Nodup :=
  ⟨by decide,
   doc_ids_nodup_of_distinct_name_timestamp
     [.upload ⟨"a.pdf", 1, "application/pdf"⟩ ⟨5, 10, "d", []⟩,
      .deleteDoc "x",
      .upload ⟨"a.pdf", 1, "application/pdf"⟩ ⟨7, 10, "d", []⟩] (by decide)⟩

/-- Counterexample to C9 as stated: two uploads of the same file name whose
`Date.now()` timestamps coincide (possible for interleaved `handleFileSelect`
invocations within the same millisecond) produce two documents with the
identical id "a.pdf-5", so the registry ids are not pairwise distinct. -/
theorem doc_ids_duplicate_counterexample :
    ¬ (((runReg [.upload ⟨"a.pdf", 1, "application/pdf"⟩ ⟨5, 10, "d", []⟩,
                 .upload ⟨"a.pdf", 1, "application/pdf"⟩ ⟨5, 10, "d", []⟩]
          regInit).documents).map Document.id).Nodup := by
  decide

end DocSearch
